import Mathlib

/-!
Verification of the rook OSD manifest-building and PVC-allocation logic
(`pkg/operator/ceph/cluster/osd`): a shallow embedding of the Go source
together with theorems about the claims of the specification.

The embedding covers two components:

* the Volume Claim Allocator (`createStorageClassDeviceSetPVC` and its
  helpers from `storageClassDeviceSet.go`), modelled against an explicit
  backing-store state (list of claims, a name counter for server-side
  generated names, and a trace of the store operations issued);
* the Manifest Builder (`provisionPodTemplateSpec`, `provisionOSDContainer`,
  `makeDeployment` and helpers from the OSD spec file), modelled as pure
  record construction.

Helpers that the excerpt calls but whose code lies outside it
(`opspec.PodVolumes`, `k8sutil.*`, the version comparison utility, the
Kubernetes API server behaviour) are supplied as explicit parameters or
definitions marked `Modelled from the spec:`.
-/

namespace RookOsd

/-! ## Kubernetes-side data model (the fields the excerpt reads and writes) -/

/-- A persistent volume claim as the allocator sees it: object metadata
(name, generate-name, labels, annotationSet) plus an abstract claim spec that
is passed through unchanged from the template. -/
structure PVCSpec where
  raw : String
deriving DecidableEq, Repr

structure PersistentVolumeClaim where
  name : String
  generateName : String
  labels : List (String × String)
  annotationSet : List (String × String)
  spec : PVCSpec
deriving DecidableEq, Repr

/-- A device-set template (`rookalpha.StorageClassDeviceSet`): the fields the
allocator reads. Resource and placement fields are not consulted by
`createStorageClassDeviceSetPVC` and are omitted. -/
structure StorageClassDeviceSet where
  name : String
  count : Nat
  volumeClaimTemplates : List PersistentVolumeClaim
deriving DecidableEq, Repr

/-- Map write with overwrite semantics for the Go `map[string]string`
assignment `m[k] = v`, on an association-list representation. -/
def mapInsert (m : List (String × String)) (k v : String) : List (String × String) :=
  if m.any (fun p => p.1 == k) then
    m.map (fun p => if p.1 == k then (k, v) else p)
  else
    m ++ [(k, v)]

/-! ## The backing store (Kubernetes PVC API of one namespace)

Modelled from the spec: the orchestration-platform store is an external,
strongly consistent resource store offering list-by-label-selector and
create-with-generated-name. The state records the stored claims, a counter
from which server-side generated names are drawn, a trace of the operations
issued, and two flags injecting operation failures (the spec's
"backing-store-query/creation failure" category). -/

inductive StoreOp
  | list (labelSelector : String)
  | create (generateName : String)
deriving DecidableEq, Repr

structure ClientsetState where
  pvcs : List PersistentVolumeClaim
  nameCounter : Nat
  trace : List StoreOp
  failList : Bool
  failCreate : Bool
deriving DecidableEq, Repr

/-- Modelled from the spec: Kubernetes equality label selector. A claim
matches the selector string `k=v` exactly when it carries label `k` with
value `v`. -/
def matchesSelector (labelSelector : String) (pvc : PersistentVolumeClaim) : Bool :=
  pvc.labels.any (fun kv => decide (kv.1 ++ "=" ++ kv.2 = labelSelector))

def listMatching (labelSelector : String) (pvcs : List PersistentVolumeClaim) :
    List PersistentVolumeClaim :=
  pvcs.filter (matchesSelector labelSelector)

/-- Modelled from the spec: `PersistentVolumeClaims(namespace).List` with a
label selector. Issues one list operation; fails when failure is injected. -/
def listPVCs (labelSelector : String) (s : ClientsetState) :
    Except String (List PersistentVolumeClaim) × ClientsetState :=
  let s' := { s with trace := s.trace ++ [StoreOp.list labelSelector] }
  if s.failList then (Except.error "list failed", s')
  else (Except.ok (listMatching labelSelector s.pvcs), s')

/-- Modelled from the spec: `PersistentVolumeClaims(namespace).Create`. The
server assigns `metadata.name` from the generate-name and a fresh suffix,
stores the claim and returns the stored object. -/
def createPVC (pvc : PersistentVolumeClaim) (s : ClientsetState) :
    Except String PersistentVolumeClaim × ClientsetState :=
  let s' := { s with trace := s.trace ++ [StoreOp.create pvc.generateName] }
  if s.failCreate then (Except.error "create failed", s')
  else
    let deployed := { pvc with name := pvc.generateName ++ toString s.nameCounter }
    (Except.ok deployed,
     { s' with pvcs := s.pvcs ++ [deployed], nameCounter := s.nameCounter + 1 })

/-! ## The Volume Claim Allocator (`storageClassDeviceSet.go`) -/

/-- Error taxonomy of `createStorageClassDeviceSetPVC`: the no-template
error, the wrapped backing-store failure ("failed to create pvc ... err ..."),
and the distinct ambiguous-state error ("more than one PVCs exists with
label ..."). -/
inductive OsdAllocError
  | noPVCAvailable (storageClassDeviceSetName : String)
  | pvcOpFailed (generateName storageClassDeviceSetName msg : String)
  | moreThanOnePVC (labelSelector : String)
deriving DecidableEq, Repr

/-- Function `makeStorageClassDeviceSetPVCID`: the deterministic claim identity
`<name>-<setIndex>-<pvcIndex>` and the equality label selector
`ceph.rook.io/StorageClassDeviceSetPVCId=<id>`. -/
def makeStorageClassDeviceSetPVCID (storageClassDeviceSetName : String)
    (setIndex pvcIndex : Nat) : String × String :=
  let pvcStorageClassDeviceSetPVCId :=
    storageClassDeviceSetName ++ "-" ++ toString setIndex ++ "-" ++ toString pvcIndex
  (pvcStorageClassDeviceSetPVCId,
   "ceph.rook.io/StorageClassDeviceSetPVCId=" ++ pvcStorageClassDeviceSetPVCId)

/-- Function `makeStorageClassDeviceSetPVCLabel`: the four identity labels attached to
every allocated claim. -/
def makeStorageClassDeviceSetPVCLabel (storageClassDeviceSetName
    pvcStorageClassDeviceSetPVCId : String) (pvcIndex setIndex : Nat) :
    List (String × String) :=
  [("ceph.rook.io/storageClassDeviceSet", storageClassDeviceSetName),
   ("ceph.rook.io/pvcIndex", toString pvcIndex),
   ("ceph.rook.io/setIndex", toString setIndex),
   ("ceph.rook.io/StorageClassDeviceSetPVCId", pvcStorageClassDeviceSetPVCId)]

/-- Function `makeStorageClassDeviceSetPVC`: build the claim object from the template:
identity labels merged with (and overridable by) the template's labels, a
generate-name `<id>-[<templateName>-]`, the template's annotationSet and spec. -/
def makeStorageClassDeviceSetPVC (storageClassDeviceSetName
    pvcStorageClassDeviceSetPVCId : String) (pvcIndex setIndex : Nat)
    (pvcTemplate : PersistentVolumeClaim) : PersistentVolumeClaim :=
  let pvcLabels := makeStorageClassDeviceSetPVCLabel storageClassDeviceSetName
    pvcStorageClassDeviceSetPVCId pvcIndex setIndex
  let pvcGenerateName := pvcStorageClassDeviceSetPVCId ++ "-"
  let pvcGenerateName :=
    if pvcTemplate.name.length ≠ 0 then pvcGenerateName ++ pvcTemplate.name ++ "-"
    else pvcGenerateName
  let pvcLabels := pvcTemplate.labels.foldl (fun m kv => mapInsert m kv.1 kv.2) pvcLabels
  { name := ""
    generateName := pvcGenerateName
    labels := pvcLabels
    annotationSet := pvcTemplate.annotationSet
    spec := pvcTemplate.spec }

/-- Function `createStorageClassDeviceSetPVC`: guard against an empty template list,
derive the identity of template index 0, list claims carrying the identity
label, then create (none found), reuse (exactly one) or fail (more than
one). -/
def createStorageClassDeviceSetPVC (storageClassDeviceSet : StorageClassDeviceSet)
    (setIndex : Nat) (s : ClientsetState) :
    Except OsdAllocError PersistentVolumeClaim × ClientsetState :=
  match storageClassDeviceSet.volumeClaimTemplates.head? with
  | none => (Except.error (OsdAllocError.noPVCAvailable storageClassDeviceSet.name), s)
  | some tmpl =>
    let ids := makeStorageClassDeviceSetPVCID storageClassDeviceSet.name setIndex 0
    let pvc := makeStorageClassDeviceSetPVC storageClassDeviceSet.name ids.1 0 setIndex tmpl
    match listPVCs ids.2 s with
    | (Except.error _, s1) =>
      (Except.error (OsdAllocError.pvcOpFailed pvc.generateName
        storageClassDeviceSet.name "list"), s1)
    | (Except.ok presentPVCs, s1) =>
      match presentPVCs with
      | [] =>
        match createPVC pvc s1 with
        | (Except.error _, s2) =>
          (Except.error (OsdAllocError.pvcOpFailed pvc.generateName
            storageClassDeviceSet.name "create"), s2)
        | (Except.ok deployedPVC, s2) => (Except.ok deployedPVC, s2)
      | [p] => (Except.ok p, s1)
      | _ => (Except.error (OsdAllocError.moreThanOnePVC ids.2), s1)

/-- Whether an `Except` result is a success. -/
def exceptIsOk {ε α : Type} : Except ε α → Bool
  | Except.ok _ => true
  | Except.error _ => false

/-! ## Manifest Builder data model (the OSD spec file) -/

inductive VolumeSource
  | hostPath (path : String)
  | emptyDir (medium : String)
  | persistentVolumeClaim (claimName : String)
deriving DecidableEq, Repr

structure Volume where
  name : String
  volumeSource : VolumeSource
deriving DecidableEq, Repr

structure VolumeMount where
  name : String
  mountPath : String
deriving DecidableEq, Repr

/-- An environment variable of a produced container. Variables whose entire
construction lies outside the excerpt (`k8sutil.PodIPEnvVar`, the `opmon`
helpers, ...) are carried as `external` entries tagged with the helper that
produces them; their names are none of the names the excerpt writes. -/
inductive EnvVar
  | plain (name value : String)
  | secretRef (name secretName key : String)
  | external (tag : String)
deriving DecidableEq, Repr

/-- A daemon argument. The two flags the source renders with `fmt.Sprintf`
(`--osd-journal=%s` and `--osd-memory-target=%f`) are kept structured, with
their payloads, so that claims about their presence are claims about the
flag the builder emitted; every other argument is a plain string. -/
inductive Arg
  | str (s : String)
  | osdJournal (path : String)
  | osdMemoryTarget (memoryLimit : Nat)
deriving DecidableEq, Repr

/-- Modelled from the spec: the `%f` rendering of `limit × 0.8` (the safety
factor below 1). Exact float32 rounding is outside the embedding; the payload
is the exact product scaled by the 0.8 factor, floored. -/
def osdMemoryTargetValueStr (memoryLimit : Nat) : String :=
  toString (memoryLimit * 8 / 10)

/-- Rendering of a structured argument to the literal command-line string. -/
def Arg.render : Arg → String
  | Arg.str s => s
  | Arg.osdJournal p => "--osd-journal=" ++ p
  | Arg.osdMemoryTarget m => "--osd-memory-target=" ++ osdMemoryTargetValueStr m

structure SecurityContext where
  privileged : Bool
  runAsUser : Int
  runAsNonRoot : Option Bool
  readOnlyRootFilesystem : Bool
deriving DecidableEq, Repr

structure Container where
  name : String
  image : String
  command : List String
  args : List Arg
  env : List EnvVar
  volumeMounts : List VolumeMount
  securityContext : Option SecurityContext
deriving DecidableEq, Repr

/-- Type `rookalpha.Directory`: a directory selection entry. -/
structure Directory where
  path : String
deriving DecidableEq, Repr

/-- A `rookalpha.Device` entry: name plus per-device key/value config. -/
structure Device where
  name : String
  config : List (String × String)
deriving DecidableEq, Repr

/-- The device/directory selection of a worker descriptor. The Go
`GetUseAllDevices` getter dereferences an optional boolean with default
false; the flag is carried directly. -/
structure Selection where
  deviceFilter : String
  useAllDevices : Bool
  directories : List Directory
deriving DecidableEq, Repr

def Selection.getUseAllDevices (s : Selection) : Bool :=
  s.useAllDevices

/-- Type `config.StoreConfig`: the store configuration of a worker descriptor. -/
structure StoreConfig where
  storeType : String
  databaseSizeMB : Int
  walSizeMB : Int
  journalSizeMB : Int
  osdsPerDevice : Int
  encryptedDevice : Bool
deriving DecidableEq, Repr

/-- The worker descriptor (`OSDObject`): the fields the builders read.
`pvcClaimName` is `osdObject.pvc.ClaimName`. -/
structure OSDObject where
  name : String
  devices : List Device
  selection : Selection
  metadataDevice : String
  storeConfig : StoreConfig
  location : String
  pvcClaimName : String
deriving DecidableEq, Repr

/-- The worker runtime info (`OSDInfo`) of an already-provisioned worker. -/
structure OSDInfo where
  ID : Int
  UUID : String
  IsFileStore : Bool
  IsDirectory : Bool
  DataPath : String
  Config : String
  KeyringPath : String
  Cluster : String
  Journal : String
  DevicePartUUID : String
  CephVolumeInitiated : Bool
deriving DecidableEq, Repr

/-- Modelled from the spec: the external version utility's three-part
ordered daemon version, compared lexicographically. -/
structure CephVersion where
  major : Nat
  minor : Nat
  extra : Nat
deriving DecidableEq, Repr

def CephVersion.isAtLeast (v w : CephVersion) : Bool :=
  if v.major ≠ w.major then decide (v.major > w.major)
  else if v.minor ≠ w.minor then decide (v.minor > w.minor)
  else decide (v.extra ≥ w.extra)

/-- Modelled from the spec: the self-tuning threshold is the Nautilus major
version (14). -/
def CephVersion.isAtLeastNautilus (v : CephVersion) : Bool :=
  v.isAtLeast ⟨14, 0, 0⟩

/-- The cluster context fields the builders read. `limitsMemoryValue` is
`c.resources.Limits.Memory().Value()` in bytes (zero when no limit is set),
`cephImage` is `c.cephVersion.Image`, `clusterId` the owner reference UID. -/
structure Cluster where
  clusterNamespace : String
  hostNetwork : Bool
  cephVersion : CephVersion
  cephImage : String
  rookVersion : String
  limitsMemoryValue : Nat
  dataDirHostPath : String
  clusterId : String
deriving DecidableEq, Repr

/-- Modelled from the spec: collaborators of the builders whose code lies
outside the excerpt, passed in explicitly — the common pod volume list
(`opspec.PodVolumes`), the common mount lists (`opspec.CephVolumeMounts`,
`opspec.RookVolumeMounts`), the cluster daemon env vars
(`k8sutil.ClusterDaemonEnvVars`), the binaries mount path of the daemon
image (`k8sutil.BinariesMountPath`), the resolved rook image
(`k8sutil.MakeRookImage`), path-to-volume-name sanitisation
(`k8sutil.PathToVolumeName`), the removal marker test (`IsRemovingNode`)
and the `ROOK_HOSTPATH_REQUIRES_PRIVILEGED` process environment value. -/
structure Externals where
  basePodVolumes : List Volume
  cephVolumeMounts : List VolumeMount
  rookVolumeMounts : List VolumeMount
  clusterDaemonEnvVars : List EnvVar
  binariesMountPath : String
  rookImage : String
  pathToVolumeName : String → String
  isRemovingNode : String → Bool
  hostpathRequiresPrivileged : String

/-- Constants of the excerpt (`const` block of the OSD spec file). -/
def dataDirsEnvVarName : String := "ROOK_DATA_DIRECTORIES"
def osdStoreEnvVarName : String := "ROOK_OSD_STORE"
def osdDatabaseSizeEnvVarName : String := "ROOK_OSD_DATABASE_SIZE"
def osdWalSizeEnvVarName : String := "ROOK_OSD_WAL_SIZE"
def osdJournalSizeEnvVarName : String := "ROOK_OSD_JOURNAL_SIZE"
def osdsPerDeviceEnvVarName : String := "ROOK_OSDS_PER_DEVICE"
def encryptedDeviceEnvVarName : String := "ROOK_ENCRYPTED_DEVICE"
def osdMetadataDeviceEnvVarName : String := "ROOK_METADATA_DEVICE"
def pvcBackedOSDVarName : String := "ROOK_PVC_BACKED_OSD"
def rookBinariesMountPath : String := "/rook"
def rookBinariesVolumeName : String := "rook-binaries"

/-- Constant `k8sutil.DataDir`, the well-known default data directory; its value is
documented by the excerpt's own comments ("the dataDirHostPath is always
mounting at /var/lib/rook"). -/
def DataDir : String := "/var/lib/rook"

/-- Modelled from the spec: store type names of the external `config`
package (object-based vs journal-based store). -/
def Bluestore : String := "bluestore"

def Filestore : String := "filestore"

/-- Modelled from the spec: the per-device config key for the OSDs-per-device
count (external `config.OSDsPerDeviceKey`); only its identity matters. -/
def OSDsPerDeviceKey : String := "osdsPerDevice"

/-- Modelled from the spec: the per-device config key for the metadata device
(external `config.MetadataDeviceKey`); only its identity matters. -/
def MetadataDeviceKey : String := "metadataDevice"

/-- Go `path.Join` for the clean, slash-free operands the excerpt joins. -/
def pathJoin (a b : String) : String :=
  a ++ "/" ++ b

/-- Go `filepath.Dir` for the clean paths the excerpt handles: all but the
last slash-separated component ("." when there is no slash). -/
def filepathDir (p : String) : String :=
  match (p.splitOn "/").dropLast with
  | [] => "."
  | [""] => "/"
  | cs => String.intercalate "/" cs

/-- Lookup in a Go `map[string]string` modelled as an association list. -/
def mapGet (m : List (String × String)) (k : String) : Option String :=
  (m.find? (fun p => p.1 == k)).map (fun p => p.2)

/-! ## Manifest Builder helpers (source helpers of the OSD spec file) -/

def nodeNameEnvVar (name : String) : EnvVar :=
  EnvVar.plain "ROOK_NODE_NAME" name

def dataDevicesEnvVar (dataDevices : String) : EnvVar :=
  EnvVar.plain "ROOK_DATA_DEVICES" dataDevices

def deviceFilterEnvVar (filter : String) : EnvVar :=
  EnvVar.plain "ROOK_DATA_DEVICE_FILTER" filter

def metadataDeviceEnvVar (metadataDevice : String) : EnvVar :=
  EnvVar.plain osdMetadataDeviceEnvVarName metadataDevice

def dataDirectoriesEnvVar (dataDirectories : String) : EnvVar :=
  EnvVar.plain dataDirsEnvVarName dataDirectories

def pvcBackedOSDEnvVar (pvcBacked : String) : EnvVar :=
  EnvVar.plain pvcBackedOSDVarName pvcBacked

def tiniEnvVar : EnvVar :=
  EnvVar.plain "TINI_SUBREAPER" ""

/-- Function `skipVolumeForDirectory`: a directory at `/var/lib/rook` is already
mounted through the data dir host path. -/
def skipVolumeForDirectory (path : String) : Bool :=
  path == DataDir

/-- Function `osdOnSDNFlag`: the network-binding workaround flag, appended when the
pod is not on host networking and the daemon version is at least 14.2.2. -/
def osdOnSDNFlag (hostnetwork : Bool) (v : CephVersion) : List Arg :=
  if !hostnetwork then
    if v.isAtLeast ⟨14, 2, 2⟩ then [Arg.str "--ms-learn-addr-from-peer=false"]
    else []
  else []

/-- Function `getCopyBinariesContainer`: the shared empty-dir volume plus the init
container that copies `tini` and `rook` into it. -/
def getCopyBinariesContainer (ext : Externals) : Volume × Container :=
  let volume : Volume := ⟨rookBinariesVolumeName, VolumeSource.emptyDir ""⟩
  let mount : VolumeMount := ⟨rookBinariesVolumeName, rookBinariesMountPath⟩
  (volume,
   { name := "copy-bins"
     image := ext.rookImage
     command := []
     args := [Arg.str "copy-binaries", Arg.str "--copy-to-dir",
              Arg.str rookBinariesMountPath]
     env := []
     volumeMounts := [mount]
     securityContext := none })

/-- Function `getConfigEnvVars`: the common provisioning/config environment. Entries
produced wholly by external helpers are `external` entries. -/
def getConfigEnvVars (c : Cluster) (storeConfig : StoreConfig)
    (dataDir nodeName location : String) : List EnvVar :=
  let envVars : List EnvVar :=
    [nodeNameEnvVar nodeName,
     EnvVar.plain "ROOK_CLUSTER_ID" c.clusterId,
     EnvVar.external "k8sutil.PodIPEnvVar PrivateIP",
     EnvVar.external "k8sutil.PodIPEnvVar PublicIP",
     EnvVar.external "opmon.ClusterNameEnvVar",
     EnvVar.external "opmon.EndpointEnvVar",
     EnvVar.external "opmon.SecretEnvVar",
     EnvVar.external "opmon.AdminSecretEnvVar",
     EnvVar.external ("k8sutil.ConfigDirEnvVar " ++ dataDir),
     EnvVar.external "k8sutil.ConfigOverrideEnvVar",
     EnvVar.secretRef "ROOK_FSID" "rook-ceph-mon" "fsid"]
  let envVars := if storeConfig.storeType ≠ "" then
      envVars ++ [EnvVar.plain osdStoreEnvVarName storeConfig.storeType]
    else envVars
  let envVars := if storeConfig.databaseSizeMB ≠ 0 then
      envVars ++ [EnvVar.plain osdDatabaseSizeEnvVarName (toString storeConfig.databaseSizeMB)]
    else envVars
  let envVars := if storeConfig.walSizeMB ≠ 0 then
      envVars ++ [EnvVar.plain osdWalSizeEnvVarName (toString storeConfig.walSizeMB)]
    else envVars
  let envVars := if storeConfig.journalSizeMB ≠ 0 then
      envVars ++ [EnvVar.plain osdJournalSizeEnvVarName (toString storeConfig.journalSizeMB)]
    else envVars
  let envVars := if storeConfig.osdsPerDevice ≠ 0 then
      envVars ++ [EnvVar.plain osdsPerDeviceEnvVarName (toString storeConfig.osdsPerDevice)]
    else envVars
  let envVars := if storeConfig.encryptedDevice then
      envVars ++ [EnvVar.plain encryptedDeviceEnvVarName "true"]
    else envVars
  let envVars := if location ≠ "" then
      envVars ++ [EnvVar.external ("rookalpha.LocationEnvVar " ++ location)]
    else envVars
  envVars

/-- The per-device entry of the `ROOK_DATA_DEVICES` value. The Go source
initialises `count := "1"` and then reads the configured count into a
variable shadowed by the `if` initialiser, so only the log statement sees the
configured count and the entry suffix is always `:1`. -/
def deviceEntry (device : Device) : String :=
  let count := "1"
  let devSuffix := "" ++ ":" ++ count
  let devSuffix :=
    match mapGet device.config MetadataDeviceKey with
    | some md => devSuffix ++ ":" ++ md
    | none => devSuffix
  device.name ++ devSuffix

/-- The device/filter/all chain of `provisionOSDContainer` (mutually
exclusive, first match wins): the environment entry it contributes. -/
def provisionDeviceEnvVars (osdObject : OSDObject) : List EnvVar :=
  if 0 < osdObject.devices.length then
    [dataDevicesEnvVar (String.intercalate "," (osdObject.devices.map deviceEntry))]
  else if osdObject.selection.deviceFilter ≠ "" then
    [deviceFilterEnvVar osdObject.selection.deviceFilter]
  else if osdObject.selection.getUseAllDevices then
    [deviceFilterEnvVar "all"]
  else []

/-- The device-mount-needed flag set by the device/filter/all chain of
`provisionOSDContainer`. -/
def devMountNeededByChain (osdObject : OSDObject) : Bool :=
  if 0 < osdObject.devices.length then true
  else if osdObject.selection.deviceFilter ≠ "" then true
  else if osdObject.selection.getUseAllDevices then true
  else false

/-- The device-mount-needed flag after the independent metadata-device
rule. -/
def devMountNeededFinal (osdObject : OSDObject) : Bool :=
  if osdObject.metadataDevice ≠ "" then true else devMountNeededByChain osdObject

/-- Function `provisionOSDContainer`: the provisioning container — config env vars,
the device/filter/all chain (first match wins), the independent metadata
device, the PVC bridge, directory mounts and the privilege decision. -/
def provisionOSDContainer (c : Cluster) (ext : Externals) (osdObject : OSDObject)
    (copyBinariesMount : VolumeMount) : Container :=
  let envVars := getConfigEnvVars c osdObject.storeConfig DataDir osdObject.name
    osdObject.location
  let envVars := envVars ++ provisionDeviceEnvVars osdObject
  let envVars := envVars ++
    (if osdObject.metadataDevice ≠ "" then
      [metadataDeviceEnvVar osdObject.metadataDevice]
    else [])
  let devMountNeeded := devMountNeededFinal osdObject
  let volumeMounts := ext.cephVolumeMounts ++ [copyBinariesMount]
  let volumeMounts := if devMountNeeded then
      volumeMounts ++ [⟨"devices", "/dev"⟩, ⟨"udev", "/run/udev"⟩]
    else volumeMounts
  let volumeMounts := if osdObject.pvcClaimName ≠ "" then
      volumeMounts ++ [⟨osdObject.pvcClaimName ++ "-bridge", "/mnt"⟩]
    else volumeMounts
  let envVars := if osdObject.pvcClaimName ≠ "" then
      envVars ++ [dataDevicesEnvVar ("/mnt/" ++ osdObject.pvcClaimName),
                  pvcBackedOSDEnvVar "true"]
    else envVars
  let dirStep : List VolumeMount × List EnvVar :=
    if 0 < osdObject.selection.directories.length then
      let dirPaths := osdObject.selection.directories.map (fun d => d.path)
      let extraMounts := osdObject.selection.directories.filterMap (fun d =>
        if skipVolumeForDirectory d.path then none
        else some (⟨ext.pathToVolumeName d.path, d.path⟩ : VolumeMount))
      let extraEnv :=
        if !(ext.isRemovingNode osdObject.selection.deviceFilter) then
          [dataDirectoriesEnvVar (String.intercalate "," dirPaths)]
        else []
      (extraMounts, extraEnv)
    else ([], [])
  let volumeMounts := volumeMounts ++ dirStep.1
  let envVars := envVars ++ dirStep.2
  let privileged := devMountNeeded
    || ext.hostpathRequiresPrivileged == "true"
    || osdObject.pvcClaimName != ""
  { name := "provision"
    image := c.cephImage
    command := [pathJoin rookBinariesMountPath "tini"]
    args := [Arg.str "--", Arg.str (pathJoin rookBinariesMountPath "rook"),
             Arg.str "ceph", Arg.str "osd", Arg.str "provision"]
    env := envVars
    volumeMounts := volumeMounts
    securityContext := some
      { privileged := privileged
        runAsUser := 0
        runAsNonRoot := some false
        readOnlyRootFilesystem := false } }

/-- The produced provisioning pod template: the fields the excerpt builds
from its inputs. Decorations applied by helpers outside the excerpt
(labels, owner references, placement application) do not change them. -/
structure ProvisionPodTemplate where
  volumes : List Volume
  copyBinariesContainer : Container
  provisionContainer : Container
  restartPolicy : String
  hostNetwork : Bool
  hostIPC : Bool
deriving DecidableEq, Repr

/-- The PVC volume pair added by both builders when a claim is bound: the
claim volume plus the in-memory bridge volume. -/
def pvcBridgeVolumes (osdObject : OSDObject) : List Volume :=
  if osdObject.pvcClaimName ≠ "" then
    [⟨osdObject.name, VolumeSource.persistentVolumeClaim osdObject.pvcClaimName⟩,
     ⟨osdObject.pvcClaimName ++ "-bridge", VolumeSource.emptyDir "Memory"⟩]
  else []

/-- The volume list `provisionPodTemplateSpec` assembles before its
empty-volumes guard: common pod volumes, the copy-binaries volume, the
device and udev host volumes when any device source is selected, the PVC
pair, one host-path volume per selected directory (skipping the default
data directory). -/
def provisionPodVolumes (ext : Externals) (osdObject : OSDObject) : List Volume :=
  let devVolumes : List Volume :=
    if 0 < osdObject.devices.length ∨ osdObject.selection.deviceFilter ≠ ""
        ∨ osdObject.selection.getUseAllDevices ∨ osdObject.metadataDevice ≠ "" then
      [⟨"devices", VolumeSource.hostPath "/dev"⟩,
       ⟨"udev", VolumeSource.hostPath "/run/udev"⟩]
    else []
  let dirVolumes : List Volume :=
    osdObject.selection.directories.filterMap (fun d =>
      if skipVolumeForDirectory d.path then none
      else some (⟨ext.pathToVolumeName d.path, VolumeSource.hostPath d.path⟩ : Volume))
  ext.basePodVolumes ++ [(getCopyBinariesContainer ext).1]
    ++ devVolumes ++ pvcBridgeVolumes osdObject ++ dirVolumes

/-- Function `provisionPodTemplateSpec`: the provisioning workload builder, guarded
by the empty-volumes check over `provisionPodVolumes`. -/
def provisionPodTemplateSpec (c : Cluster) (ext : Externals)
    (osdObject : OSDObject) (restart : String) :
    Except String ProvisionPodTemplate :=
  if (provisionPodVolumes ext osdObject).length = 0 then Except.error "empty volumes"
  else
    let copyBinariesMount : VolumeMount := ⟨rookBinariesVolumeName, rookBinariesMountPath⟩
    Except.ok
      { volumes := provisionPodVolumes ext osdObject
        copyBinariesContainer := (getCopyBinariesContainer ext).2
        provisionContainer := provisionOSDContainer c ext osdObject copyBinariesMount
        restartPolicy := restart
        hostNetwork := c.hostNetwork
        hostIPC := osdObject.storeConfig.encryptedDevice }

/-- The `commonArgs` assembly of `makeDeployment`: the uniform flag set,
then the memory-target flag (object-based store, below Nautilus, nonzero
memory limit), the journal flag (journal-based store), the log-destination
flag (at least 14.2.1) and the network-binding workaround. -/
def osdCommonArgs (c : Cluster) (osd : OSDInfo) : List Arg :=
  let osdID := toString osd.ID
  let commonArgs : List Arg :=
    [Arg.str "--foreground", Arg.str "--id", Arg.str osdID,
     Arg.str "--conf", Arg.str osd.Config,
     Arg.str "--osd-data", Arg.str osd.DataPath,
     Arg.str "--keyring", Arg.str osd.KeyringPath,
     Arg.str "--cluster", Arg.str osd.Cluster,
     Arg.str "--osd-uuid", Arg.str osd.UUID]
  let memorySeg : List Arg :=
    if !osd.IsFileStore
        && (!c.cephVersion.isAtLeastNautilus && !(c.limitsMemoryValue == 0)) then
      [Arg.osdMemoryTarget c.limitsMemoryValue]
    else []
  let journalSeg : List Arg :=
    if osd.IsFileStore then [Arg.osdJournal osd.Journal] else []
  let logSeg : List Arg :=
    if c.cephVersion.isAtLeast ⟨14, 2, 1⟩ then
      [Arg.str "--default-log-to-file", Arg.str "false"]
    else []
  commonArgs ++ memorySeg ++ journalSeg ++ logSeg
    ++ osdOnSDNFlag c.hostNetwork c.cephVersion

/-- The command/args selection of `makeDeployment` together with the extra
volumes and mounts the ceph-volume branch adds. -/
structure CommandChoice where
  command : List String
  args : List Arg
  extraVolumes : List Volume
  extraVolumeMounts : List VolumeMount
deriving DecidableEq, Repr

/-- Branch selection of `makeDeployment`: the filestore-on-device wrapper,
the ceph-volume supervisor, or the direct daemon invocation. In the
ceph-volume branch the source appends the memory-target flag to
`commonArgs`, a list that branch never reads (its `args` is rebuilt from
scratch), so the appended flag is discarded. -/
def osdCommandChoice (c : Cluster) (ext : Externals) (osd : OSDInfo)
    (commonArgs : List Arg) : CommandChoice :=
  let osdID := toString osd.ID
  if !osd.IsDirectory && osd.IsFileStore && !osd.CephVolumeInitiated then
    let sourcePath := pathJoin "/dev/disk/by-partuuid" osd.DevicePartUUID
    { command := [pathJoin ext.binariesMountPath "tini"]
      args := [Arg.str "--", Arg.str (pathJoin ext.binariesMountPath "rook"),
               Arg.str "ceph", Arg.str "osd", Arg.str "filestore-device",
               Arg.str "--source-path", Arg.str sourcePath,
               Arg.str "--mount-path", Arg.str osd.DataPath,
               Arg.str "--"] ++ commonArgs
      extraVolumes := []
      extraVolumeMounts := [] }
  else if osd.CephVolumeInitiated then
    let args : List Arg :=
      [Arg.str "--", Arg.str (pathJoin rookBinariesMountPath "rook"),
       Arg.str "ceph", Arg.str "osd", Arg.str "start",
       Arg.str "--", Arg.str "--foreground",
       Arg.str "--id", Arg.str osdID,
       Arg.str "--osd-uuid", Arg.str osd.UUID,
       Arg.str "--conf", Arg.str osd.Config,
       Arg.str "--cluster", Arg.str "ceph",
       Arg.str "--setuser", Arg.str "ceph",
       Arg.str "--setgroup", Arg.str "ceph",
       Arg.str "--setuser-match-path", Arg.str osd.DataPath]
    let _discardedCommonArgs :=
      if !osd.IsFileStore
          && (!c.cephVersion.isAtLeastNautilus && !(c.limitsMemoryValue == 0)) then
        commonArgs ++ [Arg.osdMemoryTarget c.limitsMemoryValue]
      else commonArgs
    let logSeg : List Arg :=
      if c.cephVersion.isAtLeast ⟨14, 2, 1⟩ then
        [Arg.str "--default-log-to-file", Arg.str "false"]
      else []
    { command := [pathJoin rookBinariesMountPath "tini"]
      args := args ++ logSeg ++ osdOnSDNFlag c.hostNetwork c.cephVersion
      extraVolumes := [⟨"run-udev", VolumeSource.hostPath "/run/udev"⟩]
      extraVolumeMounts := [⟨"run-udev", "/run/udev"⟩] }
  else
    { command := ["ceph-osd"]
      args := commonArgs
      extraVolumes := []
      extraVolumeMounts := [] }

/-- The produced daemon workload: the fields the excerpt builds from its
inputs. Decorations applied by helpers outside the excerpt (version labels,
annotation merge, owner references, placement application) do not change
them. -/
structure OSDDaemonDeployment where
  command : List String
  args : List Arg
  envVars : List EnvVar
  configEnvVars : List EnvVar
  volumes : List Volume
  volumeMounts : List VolumeMount
  configVolumeMounts : List VolumeMount
  securityContext : SecurityContext
  hostIPC : Bool
  hostPID : Bool
  hostNetwork : Bool
  nodeSelectorHostname : Option String
  replicas : Nat
deriving DecidableEq, Repr

/-- The directory/device step of `makeDeployment`: the data dir and the
extra volume and mounts it contributes — the parent of the data path for a
directory-based worker (skipped at the default data directory), `/dev` for
a device-based worker. -/
def daemonDirStep (ext : Externals) (osd : OSDInfo) :
    String × List Volume × List VolumeMount × List VolumeMount :=
  if osd.IsDirectory then
    let parentDir := filepathDir osd.DataPath
    if parentDir ≠ DataDir then
      let volumeName := ext.pathToVolumeName parentDir
      (parentDir,
       [⟨volumeName, VolumeSource.hostPath parentDir⟩],
       [⟨volumeName, parentDir⟩],
       [⟨volumeName, parentDir⟩])
    else (parentDir, [], [], [])
  else
    (DataDir,
     [⟨"devices", VolumeSource.hostPath "/dev"⟩],
     [],
     [⟨"devices", "/dev"⟩])

/-- The volume list `makeDeployment` assembles before its empty-volumes
guard: common pod volumes, the directory/device volume, the PVC pair. -/
def daemonPodVolumes (ext : Externals) (osdObject : OSDObject) (osd : OSDInfo) :
    List Volume :=
  ext.basePodVolumes ++ (daemonDirStep ext osd).2.1 ++ pvcBridgeVolumes osdObject

/-- The daemon deployment built after the empty-volumes guard passed: store
type, env var lists, `commonArgs`, the copy-binaries volume, the command
selection, the PVC bridge mount and the always-privileged security
context. -/
def makeDeploymentCore (c : Cluster) (ext : Externals) (osdObject : OSDObject)
    (osd : OSDInfo) : OSDDaemonDeployment :=
  let dirStep := daemonDirStep ext osd
  let dataDir := dirStep.1
  let configVolumeMounts := ext.rookVolumeMounts ++ dirStep.2.2.1
  let volumeMounts := ext.cephVolumeMounts ++ dirStep.2.2.2
  let volumes := daemonPodVolumes ext osdObject osd
  let storeType := if osd.IsFileStore then Filestore else Bluestore
  let osdID := toString osd.ID
  let envVars : List EnvVar :=
    [nodeNameEnvVar osdObject.name,
     EnvVar.external "k8sutil.PodIPEnvVar PrivateIP",
     EnvVar.external "k8sutil.PodIPEnvVar PublicIP",
     tiniEnvVar]
    ++ ext.clusterDaemonEnvVars
    ++ [EnvVar.plain "ROOK_OSD_UUID" osd.UUID,
        EnvVar.plain "ROOK_OSD_ID" osdID,
        EnvVar.plain "ROOK_OSD_STORE_TYPE" storeType]
  let configEnvVars :=
    getConfigEnvVars c osdObject.storeConfig dataDir osdObject.name osdObject.location
    ++ [tiniEnvVar,
        EnvVar.plain "ROOK_OSD_ID" osdID,
        EnvVar.external "ROOK_CEPH_VERSION"]
  let configEnvVars := if !osd.IsDirectory then
      configEnvVars ++ [EnvVar.plain "ROOK_IS_DEVICE" "true"]
    else configEnvVars
  let commonArgs := osdCommonArgs c osd
  let copyBinaries := getCopyBinariesContainer ext
  let volumes := volumes ++ [copyBinaries.1]
  let volumeMounts := volumeMounts ++ [⟨rookBinariesVolumeName, rookBinariesMountPath⟩]
  let choice := osdCommandChoice c ext osd commonArgs
  let volumes := volumes ++ choice.extraVolumes
  let volumeMounts := volumeMounts ++ choice.extraVolumeMounts
  let volumeMounts := if osdObject.pvcClaimName ≠ "" then
      volumeMounts ++ [⟨osdObject.pvcClaimName ++ "-bridge", "/mnt"⟩]
    else volumeMounts
  let envVars := if osdObject.pvcClaimName ≠ "" then
      envVars ++ [pvcBackedOSDEnvVar "true"]
    else envVars
  { command := choice.command
    args := choice.args
    envVars := envVars
    configEnvVars := configEnvVars
    volumes := volumes
    volumeMounts := volumeMounts
    configVolumeMounts := configVolumeMounts
    securityContext :=
      { privileged := true
        runAsUser := 0
        runAsNonRoot := none
        readOnlyRootFilesystem := false }
    hostIPC := osdObject.storeConfig.encryptedDevice
    hostPID := true
    hostNetwork := c.hostNetwork
    nodeSelectorHostname :=
      if osdObject.pvcClaimName == "" then some osdObject.name else none
    replicas := 1 }

/-- Function `makeDeployment`: the daemon deployment builder, guarded by the
empty-volumes check over `daemonPodVolumes`. -/
def makeDeployment (c : Cluster) (ext : Externals) (osdObject : OSDObject)
    (osd : OSDInfo) : Except String OSDDaemonDeployment :=
  if (daemonPodVolumes ext osdObject osd).length = 0 then Except.error "empty volumes"
  else Except.ok (makeDeploymentCore c ext osdObject osd)

/-! ## Observation helpers used by the claim statements -/

def isOsdJournalArg : Arg → Bool
  | Arg.osdJournal _ => true
  | _ => false

def isOsdMemoryTargetArg : Arg → Bool
  | Arg.osdMemoryTarget _ => true
  | _ => false

/-- Whether an argument list carries the builder-emitted journal flag. -/
def hasOsdJournalArg (args : List Arg) : Bool :=
  args.any isOsdJournalArg

/-- Whether an argument list carries the builder-emitted memory-target
flag. -/
def hasOsdMemoryTargetArg (args : List Arg) : Bool :=
  args.any isOsdMemoryTargetArg

/-- The argument list of a deployment result (empty on error). -/
def deploymentArgs (r : Except String OSDDaemonDeployment) : List Arg :=
  match r with
  | Except.ok d => d.args
  | Except.error _ => []

/-- The command of a deployment result (empty on error). -/
def deploymentCommand (r : Except String OSDDaemonDeployment) : List String :=
  match r with
  | Except.ok d => d.command
  | Except.error _ => []

/-- The privileged bit of a deployment result (false on error). -/
def deploymentPrivileged (r : Except String OSDDaemonDeployment) : Bool :=
  match r with
  | Except.ok d => d.securityContext.privileged
  | Except.error _ => false

/-- The privileged bit of a container (false when no security context). -/
def containerPrivileged (con : Container) : Bool :=
  match con.securityContext with
  | some s => s.privileged
  | none => false

/-- All values of plain environment variables with the given name. -/
def envValuesNamed (env : List EnvVar) (n : String) : List String :=
  env.filterMap (fun e => match e with
    | EnvVar.plain name v => if name == n then some v else none
    | _ => none)

/-! ## Concrete fixtures used by witnesses and counterexamples -/

def tmplEx : PersistentVolumeClaim :=
  { name := "data"
    generateName := ""
    labels := [("team", "storage")]
    annotationSet := []
    spec := ⟨"10Gi-block"⟩ }

def dsEx : StorageClassDeviceSet :=
  { name := "set1", count := 3, volumeClaimTemplates := [tmplEx] }

def dsNoTemplates : StorageClassDeviceSet :=
  { name := "set0", count := 1, volumeClaimTemplates := [] }

def storeEmpty : ClientsetState :=
  { pvcs := [], nameCounter := 0, trace := [], failList := false, failCreate := false }

/-- A claim carrying the identity label of (`set1`, set index 0). -/
def pvcDup (n : String) : PersistentVolumeClaim :=
  { name := n
    generateName := "set1-0-0-data-"
    labels := [("ceph.rook.io/StorageClassDeviceSetPVCId", "set1-0-0")]
    annotationSet := []
    spec := ⟨"10Gi-block"⟩ }

def storeDup : ClientsetState :=
  { pvcs := [pvcDup "a", pvcDup "b"], nameCounter := 7, trace := [],
    failList := false, failCreate := false }

def extEx : Externals :=
  { basePodVolumes := [⟨"rook-data", VolumeSource.hostPath "/var/lib/rook"⟩]
    cephVolumeMounts := [⟨"rook-data", "/var/lib/rook"⟩]
    rookVolumeMounts := [⟨"rook-data", "/var/lib/rook"⟩]
    clusterDaemonEnvVars := [EnvVar.external "k8sutil.ClusterDaemonEnvVars"]
    binariesMountPath := "/usr/local/bin"
    rookImage := "rook/ceph:v1.0.0"
    pathToVolumeName := fun p => p
    isRemovingNode := fun f => f == "none"
    hostpathRequiresPrivileged := "" }

/-- The external inputs with no common pod volumes at all — the most
favourable situation for the claimed empty-volumes failure. -/
def extEmptyBase : Externals :=
  { extEx with basePodVolumes := [] }

def cEx : Cluster :=
  { clusterNamespace := "rook-ceph"
    hostNetwork := false
    cephVersion := ⟨14, 2, 2⟩
    cephImage := "ceph/ceph:v14.2.2"
    rookVersion := "v1.0.0"
    limitsMemoryValue := 0
    dataDirHostPath := "/var/lib/rook"
    clusterId := "uid-1234" }

/-- A pre-Nautilus cluster with a nonzero memory limit: the conditions under
which the memory-target flag is claimed to appear. -/
def cPreNautilus : Cluster :=
  { cEx with cephVersion := ⟨13, 2, 5⟩, limitsMemoryValue := 2147483648 }

def storeConfigEx : StoreConfig :=
  { storeType := "", databaseSizeMB := 0, walSizeMB := 0, journalSizeMB := 0,
    osdsPerDevice := 0, encryptedDevice := false }

/-- A worker descriptor selecting no devices, no filter, no directories, no
metadata device and binding no claim. -/
def oEmpty : OSDObject :=
  { name := "node1"
    devices := []
    selection := { deviceFilter := "", useAllDevices := false, directories := [] }
    metadataDevice := ""
    storeConfig := storeConfigEx
    location := ""
    pvcClaimName := "" }

def osdInfoEx (fileStore dir cvi : Bool) : OSDInfo :=
  { ID := 3
    UUID := "uuid-3"
    IsFileStore := fileStore
    IsDirectory := dir
    DataPath := "/var/lib/rook/osd3"
    Config := "/var/lib/rook/osd3/config"
    KeyringPath := "/var/lib/rook/osd3/keyring"
    Cluster := "rook-ceph"
    Journal := "/var/lib/rook/osd3/journal"
    DevicePartUUID := "part-uuid-3"
    CephVolumeInitiated := cvi }

/-- One explicit device whose per-device config requests three OSDs. -/
def oDevCfg : OSDObject :=
  { oEmpty with devices := [{ name := "sdb", config := [(OSDsPerDeviceKey, "3")] }] }

/-- The spec example: device list `["sdb", "sdc"]` with no per-device
config. -/
def oDevPlain : OSDObject :=
  { oEmpty with devices := [{ name := "sdb", config := [] },
                            { name := "sdc", config := [] }] }

def cbMount : VolumeMount :=
  ⟨rookBinariesVolumeName, rookBinariesMountPath⟩

/-! ## Lemmas about the Volume Claim Allocator -/

theorem selectorHead (x : String) :
    "ceph.rook.io/StorageClassDeviceSetPVCId" ++ "=" ++ x
      = "ceph.rook.io/StorageClassDeviceSetPVCId=" ++ x := by
  have h : ("ceph.rook.io/StorageClassDeviceSetPVCId" ++ "=" : String)
      = "ceph.rook.io/StorageClassDeviceSetPVCId=" := rfl
  rw [h]

/-- A pair survives the merge of the template labels as long as no template
label shares its key. -/
theorem mem_foldl_mapInsert (l m : List (String × String)) (k v : String)
    (hm : (k, v) ∈ m) (hk : ∀ kv ∈ l, kv.1 ≠ k) :
    (k, v) ∈ l.foldl (fun acc kv => mapInsert acc kv.1 kv.2) m := by
  induction l generalizing m with
  | nil => exact hm
  | cons x xs ih =>
    simp only [List.foldl_cons]
    apply ih
    · unfold mapInsert
      have hxk : x.1 ≠ k := hk x (List.mem_cons_self x xs)
      by_cases hx : m.any (fun p => p.1 == x.1)
      · simp only [hx, if_true]
        exact List.mem_map.mpr ⟨(k, v), hm, by
          have : ((k, v).1 == x.1) = false := by
            simp only [beq_eq_false_iff_ne]
            exact fun h => hxk h.symm
          simp [this]⟩
      · simp only [hx, if_false]
        exact List.mem_append_left _ hm
    · intro kv hkv
      exact hk kv (List.mem_cons_of_mem x hkv)

/-- The claim built from a template that does not override the identity
label matches the identity label selector. -/
theorem makeStorageClassDeviceSetPVC_matches (name : String) (setIndex : Nat)
    (t : PersistentVolumeClaim)
    (hid : ∀ kv ∈ t.labels, kv.1 ≠ "ceph.rook.io/StorageClassDeviceSetPVCId") :
    matchesSelector (makeStorageClassDeviceSetPVCID name setIndex 0).2
      (makeStorageClassDeviceSetPVC name
        (makeStorageClassDeviceSetPVCID name setIndex 0).1 0 setIndex t) = true := by
  unfold matchesSelector makeStorageClassDeviceSetPVC makeStorageClassDeviceSetPVCID
  simp only [List.any_eq_true]
  refine ⟨("ceph.rook.io/StorageClassDeviceSetPVCId",
    name ++ "-" ++ toString setIndex ++ "-" ++ toString 0), ?_, ?_⟩
  · apply mem_foldl_mapInsert
    · unfold makeStorageClassDeviceSetPVCLabel
      simp
    · exact hid
  · simp only [selectorHead, decide_eq_true_eq]

theorem listMatching_append (sel : String) (xs ys : List PersistentVolumeClaim) :
    listMatching sel (xs ++ ys) = listMatching sel xs ++ listMatching sel ys := by
  unfold listMatching
  exact List.filter_append xs ys

/-- The name assigned by the store does not affect label matching. -/
theorem matchesSelector_rename (sel : String) (pvc : PersistentVolumeClaim)
    (n : String) :
    matchesSelector sel
      { name := n, generateName := pvc.generateName, labels := pvc.labels,
        annotationSet := pvc.annotationSet, spec := pvc.spec }
      = matchesSelector sel pvc := rfl

/-! ## Claim C10 -/

/-- Claim C10: for every device-set template whose volume claim template
list is empty, the Volume Claim Allocator returns an error immediately
without issuing any list or create call to the backing store, leaving the
store state (claims, name counter and operation trace) unchanged. -/
theorem c10_theorem (ds : StorageClassDeviceSet) (setIndex : Nat)
    (s : ClientsetState) (h : ds.volumeClaimTemplates = []) :
    createStorageClassDeviceSetPVC ds setIndex s
      = (Except.error (OsdAllocError.noPVCAvailable ds.name), s) := by
  unfold createStorageClassDeviceSetPVC
  rw [h]
  rfl

/-- Witness for C10 at a concrete empty-template device set. -/
theorem c10_witness :
    dsNoTemplates.volumeClaimTemplates = [] ∧
    createStorageClassDeviceSetPVC dsNoTemplates 0 storeEmpty
      = (Except.error (OsdAllocError.noPVCAvailable "set0"), storeEmpty) :=
  ⟨rfl, c10_theorem dsNoTemplates 0 storeEmpty rfl⟩

/-! ## Claim C9 -/

/-- Claim C9: the Volume Claim Allocator reads only the device-set name and
the first volume claim template (with fixed template index 0): two device
sets agreeing on those produce identical results, and a call grows the
store by at most one claim regardless of how many templates are declared. -/
theorem c9_theorem :
    (∀ (ds1 ds2 : StorageClassDeviceSet) (setIndex : Nat) (s : ClientsetState),
      ds1.name = ds2.name →
      ds1.volumeClaimTemplates.head? = ds2.volumeClaimTemplates.head? →
      createStorageClassDeviceSetPVC ds1 setIndex s
        = createStorageClassDeviceSetPVC ds2 setIndex s) ∧
    (∀ (ds : StorageClassDeviceSet) (setIndex : Nat) (s : ClientsetState),
      (createStorageClassDeviceSetPVC ds setIndex s).2.pvcs.length
        ≤ s.pvcs.length + 1) := by
  constructor
  · intro ds1 ds2 setIndex s h1 h2
    unfold createStorageClassDeviceSetPVC
    rw [h1, h2]
  · intro ds setIndex s
    unfold createStorageClassDeviceSetPVC listPVCs createPVC
    cases hh : ds.volumeClaimTemplates.head? with
    | none => simp
    | some tmpl =>
      cases hf : s.failList with
      | true => simp [hf]
      | false =>
        cases hm : listMatching (makeStorageClassDeviceSetPVCID ds.name setIndex 0).2
            s.pvcs with
        | nil =>
          cases hc : s.failCreate with
          | true => simp [hf, hm, hc]
          | false => simp [hf, hm, hc]
        | cons p tl =>
          cases tl with
          | nil => simp [hf, hm]
          | cons q tl2 => simp [hf, hm]

/-- Witness for C9: a device set with two templates behaves as one with only
the first, and the store grew by exactly one claim. -/
theorem c9_witness :
    ({ dsEx with volumeClaimTemplates := [tmplEx, pvcDup "x"] } :
        StorageClassDeviceSet).name = dsEx.name ∧
    ({ dsEx with volumeClaimTemplates := [tmplEx, pvcDup "x"] } :
        StorageClassDeviceSet).volumeClaimTemplates.head?
      = dsEx.volumeClaimTemplates.head? ∧
    createStorageClassDeviceSetPVC
        { dsEx with volumeClaimTemplates := [tmplEx, pvcDup "x"] } 0 storeEmpty
      = createStorageClassDeviceSetPVC dsEx 0 storeEmpty ∧
    (createStorageClassDeviceSetPVC dsEx 0 storeEmpty).2.pvcs.length
      ≤ storeEmpty.pvcs.length + 1 :=
  ⟨rfl, rfl,
   c9_theorem.1 _ dsEx 0 storeEmpty rfl rfl,
   c9_theorem.2 dsEx 0 storeEmpty⟩

/-! ## Claim C5 -/

/-- Claim C5: whenever two or more stored claims carry the derived identity
label (and the list query itself succeeds), the allocator returns the
distinct ambiguous-state error — not a propagated backing-store error —
creates no claim, returns no claim, and issues only the one list
operation. -/
theorem c5_theorem (ds : StorageClassDeviceSet) (setIndex : Nat)
    (s : ClientsetState) (t : PersistentVolumeClaim)
    (ht : ds.volumeClaimTemplates.head? = some t)
    (hfl : s.failList = false)
    (hdup : 2 ≤ (listMatching (makeStorageClassDeviceSetPVCID ds.name setIndex 0).2
        s.pvcs).length) :
    (createStorageClassDeviceSetPVC ds setIndex s).1
      = Except.error (OsdAllocError.moreThanOnePVC
          (makeStorageClassDeviceSetPVCID ds.name setIndex 0).2) ∧
    (createStorageClassDeviceSetPVC ds setIndex s).2.pvcs = s.pvcs ∧
    (createStorageClassDeviceSetPVC ds setIndex s).2.nameCounter = s.nameCounter ∧
    (createStorageClassDeviceSetPVC ds setIndex s).2.trace
      = s.trace ++ [StoreOp.list (makeStorageClassDeviceSetPVCID ds.name setIndex 0).2] := by
  unfold createStorageClassDeviceSetPVC listPVCs
  cases hm : listMatching (makeStorageClassDeviceSetPVCID ds.name setIndex 0).2 s.pvcs with
  | nil => rw [hm] at hdup; simp at hdup
  | cons p tl =>
    cases tl with
    | nil => rw [hm] at hdup; simp at hdup
    | cons q tl2 => simp [ht, hfl, hm]

/-- Witness for C5 at a store holding two claims under one identity label. -/
theorem c5_witness :
    dsEx.volumeClaimTemplates.head? = some tmplEx ∧
    storeDup.failList = false ∧
    2 ≤ (listMatching (makeStorageClassDeviceSetPVCID dsEx.name 0 0).2 storeDup.pvcs).length ∧
    ((createStorageClassDeviceSetPVC dsEx 0 storeDup).1
      = Except.error (OsdAllocError.moreThanOnePVC
          (makeStorageClassDeviceSetPVCID dsEx.name 0 0).2) ∧
     (createStorageClassDeviceSetPVC dsEx 0 storeDup).2.pvcs = storeDup.pvcs ∧
     (createStorageClassDeviceSetPVC dsEx 0 storeDup).2.nameCounter = storeDup.nameCounter ∧
     (createStorageClassDeviceSetPVC dsEx 0 storeDup).2.trace
       = storeDup.trace ++ [StoreOp.list (makeStorageClassDeviceSetPVCID dsEx.name 0 0).2]) :=
  ⟨rfl, rfl, by decide, c5_theorem dsEx 0 storeDup tmplEx rfl rfl (by decide)⟩

/-! ## Claim C4 -/

/-- Claim C4: the allocator is idempotent. If a first call for a
(device-set name, set index) pair succeeds by creating a claim carrying the
derived identity label (no stored claim matched beforehand, the template
does not override the identity label, store operations succeed), a second
call against the resulting store state succeeds with the same claim object
and creates no second claim. -/
theorem c4_theorem (ds : StorageClassDeviceSet) (setIndex : Nat)
    (s : ClientsetState) (t : PersistentVolumeClaim)
    (ht : ds.volumeClaimTemplates.head? = some t)
    (hid : t.labels.all
      (fun kv => kv.1 != "ceph.rook.io/StorageClassDeviceSetPVCId") = true)
    (hempty : listMatching (makeStorageClassDeviceSetPVCID ds.name setIndex 0).2
        s.pvcs = [])
    (hfl : s.failList = false) (hfc : s.failCreate = false) :
    exceptIsOk (createStorageClassDeviceSetPVC ds setIndex s).1 = true ∧
    (createStorageClassDeviceSetPVC ds setIndex
        ((createStorageClassDeviceSetPVC ds setIndex s).2)).1
      = (createStorageClassDeviceSetPVC ds setIndex s).1 ∧
    (createStorageClassDeviceSetPVC ds setIndex
        ((createStorageClassDeviceSetPVC ds setIndex s).2)).2.pvcs
      = ((createStorageClassDeviceSetPVC ds setIndex s).2).pvcs := by
  have hid' : ∀ kv ∈ t.labels, kv.1 ≠ "ceph.rook.io/StorageClassDeviceSetPVCId" := by
    intro kv hkv
    have := List.all_eq_true.mp hid kv hkv
    simpa using this
  have hmatch := makeStorageClassDeviceSetPVC_matches ds.name setIndex t hid'
  unfold createStorageClassDeviceSetPVC listPVCs createPVC
  simp only [ht, hfl, hempty, hfc]
  simp only [Bool.false_eq_true, if_false, listMatching_append, hempty]
  simp [listMatching, matchesSelector_rename, hmatch, exceptIsOk]

/-- Witness for C4: allocate on an empty store, then call again on the
resulting store. -/
theorem c4_witness :
    dsEx.volumeClaimTemplates.head? = some tmplEx ∧
    tmplEx.labels.all
      (fun kv => kv.1 != "ceph.rook.io/StorageClassDeviceSetPVCId") = true ∧
    listMatching (makeStorageClassDeviceSetPVCID dsEx.name 0 0).2 storeEmpty.pvcs = [] ∧
    storeEmpty.failList = false ∧
    storeEmpty.failCreate = false ∧
    (exceptIsOk (createStorageClassDeviceSetPVC dsEx 0 storeEmpty).1 = true ∧
     (createStorageClassDeviceSetPVC dsEx 0
         ((createStorageClassDeviceSetPVC dsEx 0 storeEmpty).2)).1
       = (createStorageClassDeviceSetPVC dsEx 0 storeEmpty).1 ∧
     (createStorageClassDeviceSetPVC dsEx 0
         ((createStorageClassDeviceSetPVC dsEx 0 storeEmpty).2)).2.pvcs
       = ((createStorageClassDeviceSetPVC dsEx 0 storeEmpty).2).pvcs) :=
  ⟨rfl, rfl, rfl, rfl, rfl,
   c4_theorem dsEx 0 storeEmpty tmplEx rfl rfl rfl rfl rfl⟩

/-! ## Claim C1 -/

/-- Counterexample to claim C1: a worker descriptor specifying no devices,
no device filter, no use-all-devices flag, no metadata device, no
directories and no bound PVC claim, for which the provisioning pod-template
builder nevertheless succeeds — even with an empty common pod volume list —
because the copy-binaries volume is always added before the empty-volumes
check. -/
theorem c1_counterexample :
    oEmpty.devices = [] ∧ oEmpty.selection.deviceFilter = "" ∧
    oEmpty.selection.getUseAllDevices = false ∧ oEmpty.metadataDevice = "" ∧
    oEmpty.selection.directories = [] ∧ oEmpty.pvcClaimName = "" ∧
    exceptIsOk (provisionPodTemplateSpec cEx extEmptyBase oEmpty "OnFailure") = true :=
  ⟨rfl, rfl, rfl, rfl, rfl, rfl, rfl⟩

/-- Claim C1 as amended: manifest construction never fails with the
empty-volumes error for such descriptors. The provisioning builder always
succeeds (the copy-binaries volume is unconditionally appended before the
guard), and the daemon deployment builder succeeds whenever the common pod
volume list supplied by the platform helpers is non-empty. -/
theorem c1_theorem :
    (∀ (c : Cluster) (ext : Externals) (o : OSDObject) (restart : String),
      exceptIsOk (provisionPodTemplateSpec c ext o restart) = true) ∧
    (∀ (c : Cluster) (ext : Externals) (o : OSDObject) (osd : OSDInfo),
      ext.basePodVolumes ≠ [] →
      exceptIsOk (makeDeployment c ext o osd) = true) := by
  constructor
  · intro c ext o restart
    have h : ¬ (provisionPodVolumes ext o).length = 0 := by
      simp only [provisionPodVolumes, List.length_append, List.length_cons,
        List.length_nil]
      omega
    unfold provisionPodTemplateSpec
    rw [if_neg h]
    rfl
  · intro c ext o osd hbase
    have hb : 0 < ext.basePodVolumes.length := List.length_pos.mpr hbase
    have h : ¬ (daemonPodVolumes ext o osd).length = 0 := by
      simp only [daemonPodVolumes, List.length_append]
      omega
    unfold makeDeployment
    rw [if_neg h]
    rfl

/-- Witness for C1 at concrete inputs with non-empty common pod volumes. -/
theorem c1_witness :
    extEx.basePodVolumes ≠ [] ∧
    exceptIsOk (provisionPodTemplateSpec cEx extEx oEmpty "OnFailure") = true ∧
    exceptIsOk (makeDeployment cEx extEx oEmpty (osdInfoEx true true false)) = true :=
  ⟨by decide,
   c1_theorem.1 cEx extEx oEmpty "OnFailure",
   c1_theorem.2 cEx extEx oEmpty (osdInfoEx true true false) (by decide)⟩

/-! ## Lemmas about the daemon argument assembly -/

theorem hasOsdJournalArg_append (a b : List Arg) :
    hasOsdJournalArg (a ++ b) = (hasOsdJournalArg a || hasOsdJournalArg b) := by
  unfold hasOsdJournalArg
  exact List.any_append

theorem hasOsdJournalArg_nil : hasOsdJournalArg [] = false := rfl

theorem hasOsdJournalArg_str_cons (s : String) (l : List Arg) :
    hasOsdJournalArg (Arg.str s :: l) = hasOsdJournalArg l := by
  simp [hasOsdJournalArg, isOsdJournalArg]

theorem hasOsdJournalArg_memArg_cons (m : Nat) (l : List Arg) :
    hasOsdJournalArg (Arg.osdMemoryTarget m :: l) = hasOsdJournalArg l := by
  simp [hasOsdJournalArg, isOsdJournalArg]

theorem hasOsdJournalArg_journalArg_cons (p : String) (l : List Arg) :
    hasOsdJournalArg (Arg.osdJournal p :: l) = true := by
  simp [hasOsdJournalArg, isOsdJournalArg]

theorem hasOsdJournalArg_osdOnSDNFlag (h : Bool) (v : CephVersion) :
    hasOsdJournalArg (osdOnSDNFlag h v) = false := by
  unfold osdOnSDNFlag hasOsdJournalArg
  split_ifs <;> rfl

/-- The uniform flag set carries the journal flag exactly for the
journal-based store. -/
theorem hasOsdJournalArg_osdCommonArgs (c : Cluster) (osd : OSDInfo) :
    hasOsdJournalArg (osdCommonArgs c osd) = osd.IsFileStore := by
  unfold osdCommonArgs
  simp only [hasOsdJournalArg_append, hasOsdJournalArg_osdOnSDNFlag,
    apply_ite hasOsdJournalArg, hasOsdJournalArg_str_cons,
    hasOsdJournalArg_memArg_cons, hasOsdJournalArg_journalArg_cons,
    hasOsdJournalArg_nil]
  cases hfs : osd.IsFileStore <;> simp [hfs]

/-- The journal flag the builder emits is a member of the uniform flag set
for a journal-based worker. -/
theorem osdJournal_mem_osdCommonArgs (c : Cluster) (osd : OSDInfo)
    (hfs : osd.IsFileStore = true) :
    Arg.osdJournal osd.Journal ∈ osdCommonArgs c osd := by
  unfold osdCommonArgs
  simp [hfs, List.mem_append]

theorem makeDeploymentCore_args (c : Cluster) (ext : Externals) (o : OSDObject)
    (osd : OSDInfo) :
    (makeDeploymentCore c ext o osd).args
      = (osdCommandChoice c ext osd (osdCommonArgs c osd)).args := rfl

theorem makeDeploymentCore_command (c : Cluster) (ext : Externals) (o : OSDObject)
    (osd : OSDInfo) :
    (makeDeploymentCore c ext o osd).command
      = (osdCommandChoice c ext osd (osdCommonArgs c osd)).command := rfl

/-! ## Claim C2 -/

/-- Claim C2 evaluated at the failing input: a bluestore worker below the
Nautilus threshold with a nonzero memory limit, provisioned by ceph-volume.
The claim requires the memory-target flag in the daemon arguments; the
built deployment's arguments do not contain it, because the source appends
the flag to the `commonArgs` list, which the ceph-volume branch discards. -/
theorem c2_theorem :
    (osdInfoEx false false true).IsFileStore = false ∧
    cPreNautilus.cephVersion.isAtLeastNautilus = false ∧
    cPreNautilus.limitsMemoryValue ≠ 0 ∧
    (osdInfoEx false false true).CephVolumeInitiated = true ∧
    exceptIsOk (makeDeployment cPreNautilus extEx oEmpty (osdInfoEx false false true))
      = true ∧
    hasOsdMemoryTargetArg (deploymentArgs
      (makeDeployment cPreNautilus extEx oEmpty (osdInfoEx false false true))) = false := by
  refine ⟨rfl, rfl, ?_, rfl, rfl, rfl⟩
  decide

/-! ## Claim C3 -/

/-- Counterexample to claim C3: a directory-based, journal-based,
non-ceph-volume worker is started with the plain `ceph-osd` command, not the
bind-mount-then-exec wrapper the claim requires (the wrapper branch requires
a device-based worker). The journal flag is present as claimed. -/
theorem c3_counterexample :
    (osdInfoEx true true false).IsDirectory = true ∧
    (osdInfoEx true true false).IsFileStore = true ∧
    (osdInfoEx true true false).CephVolumeInitiated = false ∧
    deploymentCommand (makeDeployment cEx extEx oEmpty (osdInfoEx true true false))
      = ["ceph-osd"] ∧
    deploymentCommand (makeDeployment cEx extEx oEmpty (osdInfoEx true true false))
      ≠ [pathJoin extEx.binariesMountPath "tini"] ∧
    hasOsdJournalArg (deploymentArgs
      (makeDeployment cEx extEx oEmpty (osdInfoEx true true false))) = true := by
  refine ⟨rfl, rfl, rfl, ?_, ?_, ?_⟩ <;> decide

/-- Claim C3 as amended: for every device-based (not directory-based)
journal-based worker not initiated by ceph-volume, the deployment builder
selects the bind-mount-then-exec wrapper command (tini from the daemon
image's binaries mount) and the argument list contains the
`--osd-journal=<journal path>` flag. -/
theorem c3_theorem (c : Cluster) (ext : Externals) (o : OSDObject) (osd : OSDInfo)
    (hdir : osd.IsDirectory = false) (hfs : osd.IsFileStore = true)
    (hcvi : osd.CephVolumeInitiated = false) :
    exceptIsOk (makeDeployment c ext o osd) = true ∧
    deploymentCommand (makeDeployment c ext o osd)
      = [pathJoin ext.binariesMountPath "tini"] ∧
    Arg.osdJournal osd.Journal ∈ deploymentArgs (makeDeployment c ext o osd) := by
  have hlen : ¬ (daemonPodVolumes ext o osd).length = 0 := by
    unfold daemonPodVolumes daemonDirStep
    simp [hdir, List.length_append]
  unfold makeDeployment
  rw [if_neg hlen]
  refine ⟨rfl, ?_, ?_⟩
  · show (makeDeploymentCore c ext o osd).command = _
    rw [makeDeploymentCore_command]
    unfold osdCommandChoice
    simp [hdir, hfs, hcvi]
  · show Arg.osdJournal osd.Journal ∈ (makeDeploymentCore c ext o osd).args
    rw [makeDeploymentCore_args]
    unfold osdCommandChoice
    simp [hdir, hfs, hcvi, List.mem_append, osdJournal_mem_osdCommonArgs c osd hfs]

/-- Witness for C3 at a concrete device-based filestore worker. -/
theorem c3_witness :
    (osdInfoEx true false false).IsDirectory = false ∧
    (osdInfoEx true false false).IsFileStore = true ∧
    (osdInfoEx true false false).CephVolumeInitiated = false ∧
    (exceptIsOk (makeDeployment cEx extEx oEmpty (osdInfoEx true false false)) = true ∧
     deploymentCommand (makeDeployment cEx extEx oEmpty (osdInfoEx true false false))
       = [pathJoin extEx.binariesMountPath "tini"] ∧
     Arg.osdJournal (osdInfoEx true false false).Journal
       ∈ deploymentArgs (makeDeployment cEx extEx oEmpty (osdInfoEx true false false))) :=
  ⟨rfl, rfl, rfl, c3_theorem cEx extEx oEmpty (osdInfoEx true false false) rfl rfl rfl⟩

/-! ## Claim C6 -/

/-- Counterexample to claim C6: a journal-based worker provisioned by
ceph-volume — its deployment's argument list carries no `--osd-journal`
flag, although the claim requires one in every branch. -/
theorem c6_counterexample :
    (osdInfoEx true false true).IsFileStore = true ∧
    exceptIsOk (makeDeployment cEx extEx oEmpty (osdInfoEx true false true)) = true ∧
    hasOsdJournalArg (deploymentArgs
      (makeDeployment cEx extEx oEmpty (osdInfoEx true false true))) = false :=
  ⟨rfl, rfl, rfl⟩

/-- Claim C6 as amended: in every built daemon deployment the
`--osd-journal` flag appears in the argument list iff the store is
journal-based AND the worker was not ceph-volume-initiated; it never
appears for the object-based store, and never in the ceph-volume branch. -/
theorem c6_theorem (c : Cluster) (ext : Externals) (o : OSDObject) (osd : OSDInfo)
    (hok : exceptIsOk (makeDeployment c ext o osd) = true) :
    hasOsdJournalArg (deploymentArgs (makeDeployment c ext o osd)) = true
      ↔ (osd.IsFileStore = true ∧ osd.CephVolumeInitiated = false) := by
  by_cases hlen : (daemonPodVolumes ext o osd).length = 0
  · unfold makeDeployment at hok
    rw [if_pos hlen] at hok
    simp [exceptIsOk] at hok
  · unfold makeDeployment
    rw [if_neg hlen]
    show hasOsdJournalArg (makeDeploymentCore c ext o osd).args = true ↔ _
    rw [makeDeploymentCore_args]
    unfold osdCommandChoice
    cases hdir : osd.IsDirectory <;> cases hfs : osd.IsFileStore <;>
      cases hcvi : osd.CephVolumeInitiated <;>
      simp [hdir, hfs, hcvi, hasOsdJournalArg_append,
        hasOsdJournalArg_osdCommonArgs, hasOsdJournalArg_osdOnSDNFlag,
        hasOsdJournalArg_str_cons, hasOsdJournalArg_memArg_cons,
        hasOsdJournalArg_journalArg_cons, hasOsdJournalArg_nil,
        apply_ite hasOsdJournalArg]

/-- Witness for C6 at a concrete device-based filestore worker (flag
present) — the instantiated equivalence. -/
theorem c6_witness :
    exceptIsOk (makeDeployment cEx extEx oEmpty (osdInfoEx true false false)) = true ∧
    (hasOsdJournalArg (deploymentArgs
        (makeDeployment cEx extEx oEmpty (osdInfoEx true false false))) = true
      ↔ ((osdInfoEx true false false).IsFileStore = true ∧
         (osdInfoEx true false false).CephVolumeInitiated = false)) :=
  ⟨rfl, c6_theorem cEx extEx oEmpty (osdInfoEx true false false) rfl⟩

/-! ## Claim C7 -/

/-- Counterexample to claim C7: a daemon workload for a worker descriptor
with no device sources, the privilege override unset and no bound PVC —
none of the claimed conditions hold, yet the daemon deployment requests
privileged execution (the deployment builder always does). -/
theorem c7_counterexample :
    oEmpty.devices = [] ∧ oEmpty.selection.deviceFilter = "" ∧
    oEmpty.selection.getUseAllDevices = false ∧ oEmpty.metadataDevice = "" ∧
    extEx.hostpathRequiresPrivileged ≠ "true" ∧ oEmpty.pvcClaimName = "" ∧
    deploymentPrivileged (makeDeployment cEx extEx oEmpty (osdInfoEx true true false))
      = true := by
  refine ⟨rfl, rfl, rfl, rfl, ?_, rfl, rfl⟩
  decide

/-- Claim C7 as amended: the provisioning container requests privileged
execution iff the device-mount-needed flag is set (devices, filter,
use-all, or metadata device) or the environment override is "true" or the
workload is PVC-backed; daemon deployments always request privileged
execution. -/
theorem c7_theorem :
    (∀ (c : Cluster) (ext : Externals) (o : OSDObject) (m : VolumeMount),
      containerPrivileged (provisionOSDContainer c ext o m) = true ↔
        (0 < o.devices.length ∨ o.selection.deviceFilter ≠ "" ∨
         o.selection.getUseAllDevices = true ∨ o.metadataDevice ≠ "" ∨
         ext.hostpathRequiresPrivileged = "true" ∨ o.pvcClaimName ≠ "")) ∧
    (∀ (c : Cluster) (ext : Externals) (o : OSDObject) (osd : OSDInfo),
      exceptIsOk (makeDeployment c ext o osd) = true →
      deploymentPrivileged (makeDeployment c ext o osd) = true) := by
  constructor
  · intro c ext o m
    have hpriv : containerPrivileged (provisionOSDContainer c ext o m)
        = (devMountNeededFinal o || ext.hostpathRequiresPrivileged == "true"
            || o.pvcClaimName != "") := rfl
    rw [hpriv]
    unfold devMountNeededFinal devMountNeededByChain
    split_ifs <;> simp_all [beq_iff_eq, bne_iff_ne]
  · intro c ext o osd hok
    by_cases hlen : (daemonPodVolumes ext o osd).length = 0
    · unfold makeDeployment at hok
      rw [if_pos hlen] at hok
      simp [exceptIsOk] at hok
    · unfold makeDeployment
      rw [if_neg hlen]
      rfl

/-- Witness for C7: the provisioning-container equivalence at a concrete
device-bearing descriptor, and the daemon conjunct at a concrete worker. -/
theorem c7_witness :
    (containerPrivileged (provisionOSDContainer cEx extEx oDevPlain cbMount) = true ↔
      (0 < oDevPlain.devices.length ∨ oDevPlain.selection.deviceFilter ≠ "" ∨
       oDevPlain.selection.getUseAllDevices = true ∨ oDevPlain.metadataDevice ≠ "" ∨
       extEx.hostpathRequiresPrivileged = "true" ∨ oDevPlain.pvcClaimName ≠ "")) ∧
    exceptIsOk (makeDeployment cEx extEx oEmpty (osdInfoEx false false false)) = true ∧
    deploymentPrivileged (makeDeployment cEx extEx oEmpty (osdInfoEx false false false))
      = true :=
  ⟨c7_theorem.1 cEx extEx oDevPlain cbMount, rfl,
   c7_theorem.2 cEx extEx oEmpty (osdInfoEx false false false) rfl⟩

/-! ## Claim C8 -/

/-- Claim C8 evaluated: for the device `sdb` whose per-device config
requests 3 OSDs, the provisioning environment's data-devices value is
`"sdb:1"` — the configured count is lost to variable shadowing — where the
claim requires `"sdb:3"`. The spec's concrete example (devices
`["sdb", "sdc"]`, no per-device config) behaves as claimed: value
`"sdb:1,sdc:1"`, device mount added, privileged requested. -/
theorem c8_theorem :
    mapGet ((oDevCfg.devices.headD ⟨"", []⟩).config) OSDsPerDeviceKey = some "3" ∧
    envValuesNamed (provisionOSDContainer cEx extEx oDevCfg cbMount).env
      "ROOK_DATA_DEVICES" = ["sdb:1"] ∧
    envValuesNamed (provisionOSDContainer cEx extEx oDevPlain cbMount).env
      "ROOK_DATA_DEVICES" = ["sdb:1,sdc:1"] ∧
    (⟨"devices", "/dev"⟩ : VolumeMount)
      ∈ (provisionOSDContainer cEx extEx oDevPlain cbMount).volumeMounts ∧
    containerPrivileged (provisionOSDContainer cEx extEx oDevPlain cbMount) = true := by
  refine ⟨rfl, ?_, ?_, ?_, rfl⟩ <;> decide

end RookOsd

